import Mathlib

set_option maxRecDepth 40000

/-!
Verification of the Blender geometry exporter (src/blender_export.py).

The script walks the selected objects of the current scene, looks up each
object's mesh by name, applies the object's world matrix via Blender's
in-place `Mesh.transform`, and writes one text line per exported triangle
(position, normal, color triples for each of the three vertices, each
number rendered with the `%f` format).

Shallow embedding choices:
* Scalar coordinates are modelled as exact rationals represented as an
  integer numerator/denominator pair (`BlenderExport.Q`); concrete scenes
  use positive denominators, mirroring real-number coordinates.
* Host scene state is a list of objects; the result of the Blender mesh
  lookup `Blender.Mesh.Get(obj.name)` (which can raise, or return a falsy
  value, both of which `doExport` skips) is modelled per object as an
  `Option Mesh`.
* Blender's `Mesh.Get` returns a live mesh datablock, so the call
  `mesh.transform(obj.matrixWorld)` mutates host scene state in place.
  `doExport` therefore returns, besides the bytes written to the file and
  the diagnostics printed to the console, the scene state after the call.
* Blender's `Mesh.transform(matrix)` transforms the vertex coordinates by
  the full 4x4 affine matrix; with the default `recalc_normals=False`
  (the script passes no second argument) the stored vertex normals are
  left untouched.
* Python's `'%f' % x` renders a fixed-point numeral with six fractional
  digits and no exponent; it is modelled on exact rationals, rounding the
  scaled value to the nearest integer (ties upward).
-/

namespace BlenderExport

/-- Exact rational scalar: numerator and denominator.  Denominators are
kept positive by construction in every concrete value; operations do not
normalize, so all arithmetic is kernel-computable. -/
structure Q where
  n : Int
  d : Int
deriving DecidableEq

def Q.mul (a b : Q) : Q := ⟨a.n * b.n, a.d * b.d⟩

def Q.add (a b : Q) : Q := ⟨a.n * b.d + b.n * a.d, a.d * b.d⟩

instance : Mul Q := ⟨Q.mul⟩

instance : Add Q := ⟨Q.add⟩

/-- Sign test: the represented value is negative (for positive
denominators this is `n < 0`). -/
def Q.isNeg (a : Q) : Bool := a.n * a.d < 0

structure Vec3 where
  x : Q
  y : Q
  z : Q
deriving DecidableEq

/-- A mesh vertex: `co` is the position, `no` the stored normal
(Blender `MVert.co` / `MVert.no`). -/
structure Vert where
  co : Vec3
  no : Vec3
deriving DecidableEq

/-- A material; only its flat RGB color `rgbCol` is read by the script. -/
structure Material where
  rgbCol : Vec3
deriving DecidableEq

/-- A mesh face: `mat` is the material index (`MFace.mat`, an unsigned
index in Blender, hence `Nat`), `v` the ordered vertex list (`MFace.v`). -/
structure Face where
  mat : Nat
  v : List Vert
deriving DecidableEq

/-- A mesh datablock: its faces and its material list.  The script reads
vertex data only through `face.v`, so vertices are embedded by value in
the faces. -/
structure Mesh where
  faces : List Face
  materials : List Material
deriving DecidableEq

/-- A 4x4 affine world matrix: 3x3 linear part (rows `r0*`, `r1*`, `r2*`)
plus translation column `t0 t1 t2`; the projective row is the usual
`0 0 0 1` and is not represented. -/
structure Mat4 where
  r00 : Q
  r01 : Q
  r02 : Q
  r10 : Q
  r11 : Q
  r12 : Q
  r20 : Q
  r21 : Q
  r22 : Q
  t0 : Q
  t1 : Q
  t2 : Q
deriving DecidableEq

/-- Apply only the linear (rotation/scale) part of the matrix. -/
def Mat4.applyLin (M : Mat4) (p : Vec3) : Vec3 :=
  ⟨M.r00 * p.x + M.r01 * p.y + M.r02 * p.z,
   M.r10 * p.x + M.r11 * p.y + M.r12 * p.z,
   M.r20 * p.x + M.r21 * p.y + M.r22 * p.z⟩

/-- Apply the full affine matrix (linear part plus translation). -/
def Mat4.applyPt (M : Mat4) (p : Vec3) : Vec3 :=
  ⟨M.r00 * p.x + M.r01 * p.y + M.r02 * p.z + M.t0,
   M.r10 * p.x + M.r11 * p.y + M.r12 * p.z + M.t1,
   M.r20 * p.x + M.r21 * p.y + M.r22 * p.z + M.t2⟩

/-- Blender's `Mesh.transform(matrix)` as called by the script (no
`recalc_normals` argument, so it defaults to `False`): every vertex
coordinate is replaced by its image under the full affine matrix, the
stored vertex normals are left unchanged, and everything else (face
structure, material indices, materials) is untouched.  In Blender this
mutates the mesh datablock in place; the script's caller rebinds the
object's mesh to this value to model that mutation. -/
def Mesh.transform (mesh : Mesh) (M : Mat4) : Mesh :=
  { mesh with
    faces := mesh.faces.map (fun f =>
      { f with v := f.v.map (fun vt => { vt with co := M.applyPt vt.co }) }) }

/-- A scene object: selection flag (`obj.isSelected()`), the result of the
mesh lookup `Blender.Mesh.Get(obj.name)` (`none` models both the raised
exception and a falsy result, which the script treats alike), and the
world matrix `obj.matrixWorld`. -/
structure Object where
  selected : Bool
  meshLookup : Option Mesh
  matrixWorld : Mat4
deriving DecidableEq

/-- ASCII digit character for `d % 10`. -/
def digitCh (d : Nat) : Char := Char.ofNat (48 + d % 10)

/-- Decimal digits of a natural number, most significant first;
fuel-based so that it is structurally recursive and kernel-computable. -/
def natDigitsAux : Nat → Nat → List Char
  | 0, _ => []
  | fuel + 1, n => if n < 10 then [digitCh n] else natDigitsAux fuel (n / 10) ++ [digitCh n]

def natDigits (n : Nat) : List Char := natDigitsAux (n + 1) n

/-- The six fractional digits of `n` (read modulo `10 ^ 6`), most
significant first. -/
def frac6 (n : Nat) : List Char :=
  [digitCh (n / 100000), digitCh (n / 10000), digitCh (n / 1000),
   digitCh (n / 100), digitCh (n / 10), digitCh n]

/-- Magnitude of `q` scaled by `10 ^ 6` and rounded to the nearest
integer: `Int.fdiv (2 * n * 10 ^ 6 + d) (2 * d)` is
`floor (q * 10 ^ 6 + 1 / 2)` for positive denominators. -/
def fmtScaled (q : Q) : Nat :=
  (Int.fdiv (2 * q.n * 1000000 + q.d) (2 * q.d)).natAbs

/-- Python's `'%f' % q`: fixed-point, six fractional digits, optional
leading minus sign, no exponent. -/
def fmtFixed6 (q : Q) : String :=
  (if q.isNeg then "-" else "") ++ String.mk (natDigits (fmtScaled q / 1000000)) ++ "." ++
    String.mk (frac6 (fmtScaled q % 1000000))

/-- One `'%f,%f,%f '` write: three formatted numbers, comma separated,
followed by a single space. -/
def fmtTriple (t : Vec3) : String :=
  fmtFixed6 t.x ++ "," ++ fmtFixed6 t.y ++ "," ++ fmtFixed6 t.z ++ " "

/-- Concatenation of a list of strings, in order (models consecutive
`file.write` calls). -/
def sjoin : List String → String
  | [] => ""
  | s :: l => s ++ sjoin l

/-- `writeTri(file, verts, col)`: for each vertex write its position,
normal and the face color as `'%f,%f,%f '` triples, then a newline. -/
def writeTri (verts : List Vert) (col : Vec3) : String :=
  sjoin (verts.map (fun v => fmtTriple v.co ++ fmtTriple v.no ++ fmtTriple col)) ++ "\n"

/-- The color resolution in `doExport`: `materials[face.mat].rgbCol` when
`face.mat < len(mesh.materials)`, else white `[1.0, 1.0, 1.0]`. -/
def colorFor (mesh : Mesh) (face : Face) : Vec3 :=
  if h : face.mat < mesh.materials.length then
    (mesh.materials.get ⟨face.mat, h⟩).rgbCol
  else
    ⟨⟨1, 1⟩, ⟨1, 1⟩, ⟨1, 1⟩⟩

/-- The diagnostic printed for a face that is neither a tri nor a quad. -/
def skipMsg : String := "Skipping face that is neither tri nor quad!"

/-- The per-face body of the `doExport` loop: resolve the color, then
write one triangle for 3 vertices, two triangles (fan order `(v3,v1,v0)`
then `(v1,v2,v3)`) for 4 vertices, and otherwise print a diagnostic and
write nothing.  Returns (bytes written, diagnostics printed). -/
def faceExport (mesh : Mesh) (face : Face) : String × List String :=
  let col := colorFor mesh face
  let verts := face.v
  if h3 : verts.length = 3 then
    (writeTri verts col, [])
  else if h4 : verts.length = 4 then
    (writeTri [verts.get ⟨3, by omega⟩, verts.get ⟨1, by omega⟩, verts.get ⟨0, by omega⟩] col ++
       writeTri [verts.get ⟨1, by omega⟩, verts.get ⟨2, by omega⟩, verts.get ⟨3, by omega⟩] col,
     [])
  else
    ("", [skipMsg])

/-- The face loop of `doExport`, over an (already transformed) mesh:
concatenated bytes and diagnostics of the faces in order. -/
def meshExport (mesh : Mesh) : String × List String :=
  (sjoin (mesh.faces.map (fun f => (faceExport mesh f).1)),
   (mesh.faces.map (fun f => (faceExport mesh f).2)).flatten)

/-- The per-object body of the `doExport` loop: skip unselected objects,
skip objects whose mesh lookup fails (silently), otherwise transform the
mesh in place and run the face loop.  Returns (bytes written,
diagnostics, the object's state after the call). -/
def objExport (obj : Object) : String × List String × Object :=
  if obj.selected = false then ("", [], obj)
  else
    match obj.meshLookup with
    | none => ("", [], obj)
    | some mesh =>
      let tmesh := mesh.transform obj.matrixWorld
      ((meshExport tmesh).1, (meshExport tmesh).2, { obj with meshLookup := some tmesh })

/-- Result of `doExport`: bytes written to the file, diagnostics printed,
and the host scene state after the call. -/
structure ExportResult where
  output : String
  diags : List String
  scene : List Object

/-- `doExport(file)`: iterate the scene's objects in order. -/
def doExport (scene : List Object) : ExportResult :=
  { output := sjoin (scene.map (fun o => (objExport o).1))
  , diags := (scene.map (fun o => (objExport o).2.1)).flatten
  , scene := scene.map (fun o => (objExport o).2.2) }

/-- State of the output file at the end of `geomExport`. -/
structure FileState where
  content : String
  closed : Bool
deriving DecidableEq

/-- The open/try/finally skeleton of `geomExport(filename)`, with an
arbitrary body outcome.  `openOk` is whether `open(filename, 'wb')`
succeeds; when it fails the exception propagates before any write and no
file handle exists (`none`).  The body is (bytes written before the body
returned or raised, the raised exception if any); `finally: file.close()`
closes the handle on both paths. -/
def openAndRun (openOk : Bool) (body : String × Option String) :
    Option (FileState × Option String) :=
  if openOk then some ({ content := body.1, closed := true }, body.2) else none

/-- `geomExport(filename)` with `doExport` as the body (the script's
actual composition): `none` when the open fails, otherwise the written
and closed file together with the diagnostics and the post-export scene. -/
def geomExportRun (openOk : Bool) (scene : List Object) :
    Option (FileState × List String × List Object) :=
  if openOk then
    let r := doExport scene
    some ({ content := r.output, closed := true }, r.diags, r.scene)
  else none

/-- Modelled from the spec wording of claim C5 (refinement reference):
the world transform applied to positions with translation and to normals
without the translation component. -/
def specC5transform (mesh : Mesh) (M : Mat4) : Mesh :=
  { mesh with
    faces := mesh.faces.map (fun f =>
      { f with v := f.v.map (fun vt => ⟨M.applyPt vt.co, M.applyLin vt.no⟩) }) }

/-- Modelled from the spec wording of claim C5 (refinement reference):
the per-object export with the claimed transform in place of the code's
`Mesh.transform`; only the bytes written are compared. -/
def specC5objExport (obj : Object) : String :=
  if obj.selected = false then ""
  else
    match obj.meshLookup with
    | none => ""
    | some mesh => (meshExport (specC5transform mesh obj.matrixWorld)).1

/-- Modelled from the spec wording of claim C5 (refinement reference):
the whole-scene output under the claimed transform. -/
def specC5doExport (scene : List Object) : String :=
  sjoin (scene.map specC5objExport)

/-- Split a character list at every occurrence of `sep` (occurrences are
consumed; a trailing separator yields a trailing empty group). -/
def splitCh (sep : Char) : List Char → List (List Char)
  | [] => [[]]
  | c :: cs =>
    match splitCh sep cs with
    | [] => [[]]
    | g :: gs => if c = sep then [] :: g :: gs else (c :: g) :: gs

/-- ASCII digit test. -/
def isDigitCh (c : Char) : Bool := 48 ≤ c.toNat && c.toNat ≤ 57

/-- Modelled from the claim C4 wording (refinement reference): a single
fixed-point numeral, optional minus sign, at least one integer digit, a
dot, exactly six fractional digits, no exponent. -/
def checkFixed6 (l : List Char) : Bool :=
  let l2 := match l with
    | '-' :: rest => rest
    | other => other
  match splitCh '.' l2 with
  | [ip, fp] => !ip.isEmpty && ip.all isDigitCh && (fp.length == 6) && fp.all isDigitCh
  | _ => false

/-- Modelled from the claim C4 wording (refinement reference): a triple
is three comma-separated fixed-point numbers. -/
def checkTriple (l : List Char) : Bool :=
  match splitCh ',' l with
  | [a, b, c] => checkFixed6 a && checkFixed6 b && checkFixed6 c
  | _ => false

/-- Modelled from the claim C4 wording (refinement reference): a line is
exactly nine space-separated triples terminated by a single newline —
space-separated meaning single spaces strictly between the triples. -/
def specClaimedLine (s : String) : Bool :=
  match splitCh '\n' s.data with
  | [body, tail] =>
    tail.isEmpty &&
      (let groups := splitCh ' ' body
       (groups.length == 9) && groups.all checkTriple)
  | _ => false

/-- Number of newline characters in a string (used to count records). -/
def countNL (s : String) : Nat := s.data.count '\n'

/-- Characters that can occur in a written line before its newline:
digits, minus, dot, comma, space. -/
def okChar (c : Char) : Bool :=
  isDigitCh c || c == '-' || c == '.' || c == ',' || c == ' '

/-- Rational literal helper for concrete scenes. -/
def qi (i : Int) : Q := ⟨i, 1⟩

def vA : Vert := ⟨⟨qi 0, qi 0, qi 0⟩, ⟨qi 0, qi 0, qi 1⟩⟩

def vB : Vert := ⟨⟨qi 1, qi 0, qi 0⟩, ⟨qi 0, qi 0, qi 1⟩⟩

def vC : Vert := ⟨⟨qi 0, qi 1, qi 0⟩, ⟨qi 0, qi 0, qi 1⟩⟩

def vD : Vert := ⟨⟨qi 1, qi 1, qi 0⟩, ⟨qi 0, qi 0, qi 1⟩⟩

/-- The identity world matrix. -/
def idMat : Mat4 :=
  ⟨qi 1, qi 0, qi 0, qi 0, qi 1, qi 0, qi 0, qi 0, qi 1, qi 0, qi 0, qi 0⟩

/-- Translation by (1, 0, 0). -/
def transMat : Mat4 :=
  ⟨qi 1, qi 0, qi 0, qi 0, qi 1, qi 0, qi 0, qi 0, qi 1, qi 1, qi 0, qi 0⟩

/-- Uniform scale by 2. -/
def scaleMat : Mat4 :=
  ⟨qi 2, qi 0, qi 0, qi 0, qi 2, qi 0, qi 0, qi 0, qi 2, qi 0, qi 0, qi 0⟩

/-- A mesh holding one triangle face and no materials. -/
def triMesh : Mesh := ⟨[⟨0, [vA, vB, vC]⟩], []⟩

/-- Selected object, identity transform, one triangle. -/
def objId : Object := ⟨true, some triMesh, idMat⟩

/-- Selected object, translated, one triangle. -/
def objTrans : Object := ⟨true, some triMesh, transMat⟩

/-- Selected object, scaled by 2, one triangle. -/
def objScale : Object := ⟨true, some triMesh, scaleMat⟩

/-- Selected object whose mesh lookup fails. -/
def objNoMesh : Object := ⟨true, none, idMat⟩

/-- An unselected object (with a perfectly good mesh). -/
def objUnsel : Object := ⟨false, some triMesh, idMat⟩

/-- A red material. -/
def redMat : Material := ⟨⟨qi 1, qi 0, qi 0⟩⟩

/-- A mesh with one (red) material and no faces. -/
def matMesh : Mesh := ⟨[], [redMat]⟩

/-- A face with five vertices (neither tri nor quad). -/
def face5 : Face := ⟨0, [vA, vB, vC, vD, vA]⟩

/-- A quad face. -/
def face4 : Face := ⟨0, [vA, vB, vC, vD]⟩

/-- A triangle face. -/
def face3 : Face := ⟨0, [vA, vB, vC]⟩

/-- Shape of one formatted fixed-point numeral as a character list:
optional minus sign, nonempty digit run, a dot, exactly six digits. -/
def fixed6L (l : List Char) : Prop :=
  ∃ sgn ip fp : List Char,
    (sgn = [] ∨ sgn = ['-']) ∧ ip ≠ [] ∧ (∀ c ∈ ip, isDigitCh c = true) ∧
      fp.length = 6 ∧ (∀ c ∈ fp, isDigitCh c = true) ∧ l = sgn ++ ip ++ '.' :: fp

/-- Shape of one written triple: three fixed-point numerals, comma
separated, followed by the single trailing space the script writes. -/
def tripleSp (t : List Char) : Prop :=
  ∃ a b c : List Char,
    fixed6L a ∧ fixed6L b ∧ fixed6L c ∧ t = a ++ ',' :: b ++ ',' :: c ++ [' ']

/-- Shape of one written line: nine triples (position, normal, color for
each of three vertices), each followed by one space, then the newline. -/
def lineOK (s : String) : Prop :=
  ∃ ts : List (List Char),
    ts.length = 9 ∧ (∀ t ∈ ts, tripleSp t) ∧ s.data = ts.flatten ++ ['\n']

/-- The triangle records (vertex triple and color) that the face loop
emits for one face: one for a tri, the two fan triangles for a quad,
nothing otherwise. -/
def faceTris (mesh : Mesh) (face : Face) : List (List Vert × Vec3) :=
  let col := colorFor mesh face
  let verts := face.v
  if h3 : verts.length = 3 then [(verts, col)]
  else if h4 : verts.length = 4 then
    [([verts.get ⟨3, by omega⟩, verts.get ⟨1, by omega⟩, verts.get ⟨0, by omega⟩], col),
     ([verts.get ⟨1, by omega⟩, verts.get ⟨2, by omega⟩, verts.get ⟨3, by omega⟩], col)]
  else []

/-- The triangle records one object contributes, in order. -/
def objTris (obj : Object) : List (List Vert × Vec3) :=
  if obj.selected = false then []
  else
    match obj.meshLookup with
    | none => []
    | some mesh =>
      ((mesh.transform obj.matrixWorld).faces.map
        (fun f => faceTris (mesh.transform obj.matrixWorld) f)).flatten

/-- All triangle records of the export, in output order. -/
def sceneTris (scene : List Object) : List (List Vert × Vec3) :=
  (scene.map objTris).flatten

lemma sext {a b : String} (h : a.data = b.data) : a = b := by
  cases a
  cases b
  exact congrArg String.mk (by simpa using h)

lemma sapp_empty (s : String) : s ++ "" = s := by
  apply sext
  simp [String.data_append]

lemma sempty_app (s : String) : "" ++ s = s := by
  apply sext
  simp [String.data_append]

lemma sapp_assoc (a b c : String) : a ++ b ++ c = a ++ (b ++ c) := by
  apply sext
  simp [String.data_append]

lemma sjoin_append (l1 l2 : List String) : sjoin (l1 ++ l2) = sjoin l1 ++ sjoin l2 := by
  induction l1 with
  | nil => simp [sjoin, sempty_app]
  | cons a l ih => simp [sjoin, ih, sapp_assoc]

lemma sjoin_data (l : List String) : (sjoin l).data = (l.map String.data).flatten := by
  induction l with
  | nil => rfl
  | cons a l ih => simp [sjoin, String.data_append, ih]

lemma sjoin_cons (s : String) (l : List String) : sjoin (s :: l) = s ++ sjoin l := rfl

lemma sjoin_map_flatten {α : Type} (xss : List (List α)) (g : α → String) :
    sjoin (xss.flatten.map g) = sjoin (xss.map (fun xs => sjoin (xs.map g))) := by
  induction xss with
  | nil => rfl
  | cons xs xss ih =>
    simp only [List.flatten_cons, List.map_append, sjoin_append, List.map_cons, sjoin_cons, ih]

lemma lt10_cases (e : Nat) (h : e < 10) :
    e = 0 ∨ e = 1 ∨ e = 2 ∨ e = 3 ∨ e = 4 ∨ e = 5 ∨ e = 6 ∨ e = 7 ∨ e = 8 ∨ e = 9 := by
  omega

lemma digitCh_digit (d : Nat) : isDigitCh (digitCh d) = true := by
  unfold digitCh
  rcases lt10_cases (d % 10) (Nat.mod_lt _ (by omega)) with h | h | h | h | h | h | h | h | h | h <;>
    rw [h] <;> decide

lemma natDigitsAux_digits (fuel : Nat) : ∀ n : Nat, ∀ c ∈ natDigitsAux fuel n, isDigitCh c = true := by
  induction fuel with
  | zero => intro n c hc; simp [natDigitsAux] at hc
  | succ fuel ih =>
    intro n c hc
    simp only [natDigitsAux] at hc
    by_cases h : n < 10
    · rw [if_pos h] at hc
      simp at hc
      rw [hc]
      exact digitCh_digit n
    · rw [if_neg h] at hc
      rcases List.mem_append.mp hc with h1 | h2
      · exact ih _ c h1
      · simp at h2
        rw [h2]
        exact digitCh_digit n

lemma natDigits_digits (n : Nat) : ∀ c ∈ natDigits n, isDigitCh c = true :=
  natDigitsAux_digits (n + 1) n

lemma natDigits_ne_nil (n : Nat) : natDigits n ≠ [] := by
  unfold natDigits natDigitsAux
  by_cases h : n < 10
  · rw [if_pos h]; simp
  · rw [if_neg h]; simp

lemma frac6_digits (n : Nat) : ∀ c ∈ frac6 n, isDigitCh c = true := by
  intro c hc
  simp [frac6] at hc
  rcases hc with h | h | h | h | h | h <;> rw [h] <;> exact digitCh_digit _

lemma frac6_length (n : Nat) : (frac6 n).length = 6 := rfl

lemma fmtFixed6_fixed6L (q : Q) : fixed6L (fmtFixed6 q).data := by
  by_cases hq : q.isNeg
  · refine ⟨['-'], natDigits (fmtScaled q / 1000000), frac6 (fmtScaled q % 1000000),
      Or.inr rfl, natDigits_ne_nil _, natDigits_digits _, frac6_length _, frac6_digits _, ?_⟩
    simp [fmtFixed6, hq, String.data_append]
  · refine ⟨[], natDigits (fmtScaled q / 1000000), frac6 (fmtScaled q % 1000000),
      Or.inl rfl, natDigits_ne_nil _, natDigits_digits _, frac6_length _, frac6_digits _, ?_⟩
    simp [fmtFixed6, hq, String.data_append]

lemma isDigitCh_ne (c x : Char) (hd : isDigitCh c = true) (hx : isDigitCh x = false) : c ≠ x := by
  intro he
  rw [he, hx] at hd
  exact Bool.false_ne_true hd

lemma okChar_append {l1 l2 : List Char} (h1 : ∀ c ∈ l1, okChar c = true)
    (h2 : ∀ c ∈ l2, okChar c = true) : ∀ c ∈ l1 ++ l2, okChar c = true := by
  intro c hc
  rcases List.mem_append.mp hc with h | h
  · exact h1 _ h
  · exact h2 _ h

lemma okChar_cons {x : Char} {l : List Char} (hx : okChar x = true)
    (h : ∀ c ∈ l, okChar c = true) : ∀ c ∈ x :: l, okChar c = true := by
  intro c hc
  rcases List.mem_cons.mp hc with rfl | h2
  · exact hx
  · exact h _ h2

lemma digit_okChar {l : List Char} (h : ∀ c ∈ l, isDigitCh c = true) :
    ∀ c ∈ l, okChar c = true := by
  intro c hc
  have hd := h c hc
  simp [okChar, hd]

lemma fixed6L_okChars {l : List Char} (h : fixed6L l) : ∀ c ∈ l, okChar c = true := by
  rcases h with ⟨sgn, ip, fp, hsgn, _, hip, _, hfp, rfl⟩
  apply okChar_append
  · apply okChar_append
    · rcases hsgn with rfl | rfl
      · intro c hc
        exact absurd hc (by simp)
      · intro c hc
        rw [List.mem_singleton] at hc
        subst hc
        decide
    · exact digit_okChar hip
  · exact okChar_cons (by decide) (digit_okChar hfp)

lemma fmtTriple_tripleSp (t : Vec3) : tripleSp (fmtTriple t).data := by
  refine ⟨(fmtFixed6 t.x).data, (fmtFixed6 t.y).data, (fmtFixed6 t.z).data,
    fmtFixed6_fixed6L _, fmtFixed6_fixed6L _, fmtFixed6_fixed6L _, ?_⟩
  simp [fmtTriple, String.data_append]

lemma tripleSp_okChars {l : List Char} (h : tripleSp l) : ∀ c ∈ l, okChar c = true := by
  rcases h with ⟨a, b, c, ha, hb, hc, rfl⟩
  apply okChar_append
  · apply okChar_append
    · apply okChar_append (fixed6L_okChars ha)
      exact okChar_cons (by decide) (fixed6L_okChars hb)
    · exact okChar_cons (by decide) (fixed6L_okChars hc)
  · intro c2 hc2
    rw [List.mem_singleton] at hc2
    subst hc2
    decide

lemma okChar_ne_nl {c : Char} (h : okChar c = true) : c ≠ '\n' := by
  intro he
  subst he
  exact absurd h (by decide)

lemma nl_data : ("\n" : String).data = ['\n'] := rfl

lemma writeTri_lineOK (verts : List Vert) (col : Vec3) (h : verts.length = 3) :
    lineOK (writeTri verts col) := by
  rcases List.length_eq_three.mp h with ⟨u, v, w, rfl⟩
  refine ⟨[(fmtTriple u.co).data, (fmtTriple u.no).data, (fmtTriple col).data,
           (fmtTriple v.co).data, (fmtTriple v.no).data, (fmtTriple col).data,
           (fmtTriple w.co).data, (fmtTriple w.no).data, (fmtTriple col).data], rfl, ?_, ?_⟩
  · intro t ht
    simp only [List.mem_cons] at ht
    rcases ht with rfl | rfl | rfl | rfl | rfl | rfl | rfl | rfl | rfl | h0
    all_goals try exact fmtTriple_tripleSp _
    exact absurd h0 (by simp)
  · simp [writeTri, sjoin_cons, sjoin, String.data_append, nl_data, sapp_empty]

lemma countNL_writeTri (verts : List Vert) (col : Vec3) : countNL (writeTri verts col) = 1 := by
  unfold countNL writeTri
  rw [String.data_append, List.count_append]
  have h0 : ((sjoin (verts.map fun v =>
      fmtTriple v.co ++ fmtTriple v.no ++ fmtTriple col)).data).count '\n' = 0 := by
    rw [List.count_eq_zero]
    intro hmem
    rw [sjoin_data, List.mem_flatten] at hmem
    rcases hmem with ⟨l, hl, hcl⟩
    rw [List.map_map, List.mem_map] at hl
    rcases hl with ⟨v, _, rfl⟩
    simp only [Function.comp, String.data_append] at hcl
    have hok : ∀ c ∈ ((fmtTriple v.co).data ++ (fmtTriple v.no).data) ++ (fmtTriple col).data,
        okChar c = true := by
      apply okChar_append
      · exact okChar_append (tripleSp_okChars (fmtTriple_tripleSp _))
          (tripleSp_okChars (fmtTriple_tripleSp _))
      · exact tripleSp_okChars (fmtTriple_tripleSp _)
    have := hok _ (by simpa using hcl)
    exact okChar_ne_nl this rfl
  rw [h0, nl_data]
  simp

lemma objExport_noMesh {obj : Object} (h : obj.meshLookup = none) :
    objExport obj = ("", [], obj) := by
  unfold objExport
  by_cases hsel : obj.selected = false
  · rw [if_pos hsel]
  · rw [if_neg hsel, h]

lemma objExport_unsel {obj : Object} (h : obj.selected = false) :
    objExport obj = ("", [], obj) := by
  unfold objExport
  rw [if_pos h]

lemma faceExport_fst (mesh : Mesh) (face : Face) :
    (faceExport mesh face).1 = sjoin ((faceTris mesh face).map (fun r => writeTri r.1 r.2)) := by
  unfold faceExport faceTris
  by_cases h3 : face.v.length = 3
  · simp [h3, sjoin_cons, sjoin, sapp_empty]
  · by_cases h4 : face.v.length = 4
    · simp [h3, h4, sjoin_cons, sjoin, sapp_empty, sapp_assoc]
    · simp [h3, h4, sjoin]

lemma faceExport_snd (mesh : Mesh) (face : Face) (h3 : face.v.length ≠ 3)
    (h4 : face.v.length ≠ 4) : faceExport mesh face = ("", [skipMsg]) := by
  unfold faceExport
  rw [dif_neg h3, dif_neg h4]

lemma faceTris_len3 (mesh : Mesh) (face : Face) :
    ∀ r ∈ faceTris mesh face, r.1.length = 3 := by
  intro r hr
  unfold faceTris at hr
  by_cases h3 : face.v.length = 3
  · rw [dif_pos h3] at hr
    rw [List.mem_singleton] at hr
    rw [hr]
    exact h3
  · by_cases h4 : face.v.length = 4
    · rw [dif_neg h3, dif_pos h4] at hr
      rcases List.mem_cons.mp hr with rfl | hr2
      · rfl
      · rw [List.mem_singleton] at hr2
        rw [hr2]
        rfl
    · rw [dif_neg h3, dif_neg h4] at hr
      exact absurd hr (by simp)

lemma objExport_fst (obj : Object) :
    (objExport obj).1 = sjoin ((objTris obj).map (fun r => writeTri r.1 r.2)) := by
  unfold objExport objTris
  by_cases hsel : obj.selected = false
  · simp [hsel, sjoin]
  · rw [if_neg hsel, if_neg hsel]
    cases hm : obj.meshLookup with
    | none => simp [sjoin]
    | some mesh =>
      rw [sjoin_map_flatten]
      simp only [meshExport, faceExport_fst, List.map_map]
      rfl

lemma doExport_output (scene : List Object) :
    (doExport scene).output = sjoin ((sceneTris scene).map (fun r => writeTri r.1 r.2)) := by
  unfold doExport sceneTris
  rw [sjoin_map_flatten]
  simp only [objExport_fst, List.map_map]
  rfl

lemma sceneTris_len3 (scene : List Object) : ∀ r ∈ sceneTris scene, r.1.length = 3 := by
  intro r hr
  unfold sceneTris at hr
  rw [List.mem_flatten] at hr
  rcases hr with ⟨l, hl, hrl⟩
  rw [List.mem_map] at hl
  rcases hl with ⟨o, _, rfl⟩
  unfold objTris at hrl
  by_cases hsel : o.selected = false
  · rw [if_pos hsel] at hrl
    exact absurd hrl (by simp)
  · rw [if_neg hsel] at hrl
    cases hm : o.meshLookup with
    | none =>
      rw [hm] at hrl
      exact absurd hrl (by simp)
    | some mesh =>
      rw [hm] at hrl
      rw [List.mem_flatten] at hrl
      rcases hrl with ⟨l2, hl2, hrl2⟩
      rw [List.mem_map] at hl2
      rcases hl2 with ⟨f, _, rfl⟩
      exact faceTris_len3 _ _ r hrl2

lemma doExport_cons (o : Object) (l : List Object) :
    doExport (o :: l) = ⟨(objExport o).1 ++ (doExport l).output,
      (objExport o).2.1 ++ (doExport l).diags,
      (objExport o).2.2 :: (doExport l).scene⟩ := rfl

lemma doExport_append (s1 s2 : List Object) :
    doExport (s1 ++ s2) = ⟨(doExport s1).output ++ (doExport s2).output,
      (doExport s1).diags ++ (doExport s2).diags,
      (doExport s1).scene ++ (doExport s2).scene⟩ := by
  unfold doExport
  simp only [List.map_append, sjoin_append, List.flatten_append]

lemma meshExport_fst_append (mats : List Material) (fs1 fs2 : List Face) :
    (meshExport ⟨fs1 ++ fs2, mats⟩).1 =
      (meshExport ⟨fs1, mats⟩).1 ++ (meshExport ⟨fs2, mats⟩).1 := by
  show sjoin ((fs1 ++ fs2).map (fun f => (faceExport ⟨fs1 ++ fs2, mats⟩ f).1)) =
    sjoin (fs1.map (fun f => (faceExport ⟨fs1, mats⟩ f).1)) ++
      sjoin (fs2.map (fun f => (faceExport ⟨fs2, mats⟩ f).1))
  have h : ∀ fs fs2 : List Face,
      (fun f => (faceExport (Mesh.mk fs mats) f).1) =
        (fun f => (faceExport (Mesh.mk fs2 mats) f).1) := fun _ _ => rfl
  rw [h (fs1 ++ fs2) fs1, h fs2 fs1, List.map_append, sjoin_append]

lemma meshExport_snd_append (mats : List Material) (fs1 fs2 : List Face) :
    (meshExport ⟨fs1 ++ fs2, mats⟩).2 =
      (meshExport ⟨fs1, mats⟩).2 ++ (meshExport ⟨fs2, mats⟩).2 := by
  show ((fs1 ++ fs2).map (fun f => (faceExport ⟨fs1 ++ fs2, mats⟩ f).2)).flatten =
    (fs1.map (fun f => (faceExport ⟨fs1, mats⟩ f).2)).flatten ++
      (fs2.map (fun f => (faceExport ⟨fs2, mats⟩ f).2)).flatten
  have h : ∀ fs fs2 : List Face,
      (fun f => (faceExport (Mesh.mk fs mats) f).2) =
        (fun f => (faceExport (Mesh.mk fs2 mats) f).2) := fun _ _ => rfl
  rw [h (fs1 ++ fs2) fs1, h fs2 fs1, List.map_append, List.flatten_append]

lemma doExport_all_unsel {scene : List Object} (h : ∀ o ∈ scene, o.selected = false) :
    doExport scene = ⟨"", [], scene⟩ := by
  induction scene with
  | nil => rfl
  | cons o l ih =>
    rw [doExport_cons, objExport_unsel (h o (by simp)), ih (fun x hx => h x (by simp [hx]))]
    rw [sempty_app]
    rfl

lemma doExport_output_filter (scene : List Object) :
    (doExport scene).output = (doExport (scene.filter (fun o => o.selected))).output := by
  induction scene with
  | nil => rfl
  | cons o l ih =>
    by_cases hsel : o.selected = false
    · rw [List.filter_cons_of_neg (by simp [hsel]), doExport_cons]
      simp only [objExport_unsel hsel]
      rw [sempty_app, ih]
    · rw [List.filter_cons_of_pos (by simpa using hsel), doExport_cons, doExport_cons, ih]

lemma countNL_append (s t : String) : countNL (s ++ t) = countNL s + countNL t := by
  unfold countNL
  rw [String.data_append, List.count_append]

lemma faceExport_tri (mesh : Mesh) (face : Face) (a b c : Vert) (h : face.v = [a, b, c]) :
    faceExport mesh face = (writeTri [a, b, c] (colorFor mesh face), []) := by
  cases face with
  | mk mat v =>
    simp only at h
    subst h
    simp only [faceExport]
    norm_num

lemma faceExport_quad (mesh : Mesh) (face : Face) (a b c d : Vert) (h : face.v = [a, b, c, d]) :
    faceExport mesh face =
      (writeTri [d, b, a] (colorFor mesh face) ++ writeTri [b, c, d] (colorFor mesh face), []) := by
  cases face with
  | mk mat v =>
    simp only at h
    subst h
    simp only [faceExport]
    norm_num

/-- C1 counterexample: the claim says every scene entity is only read and
the source mesh's vertex data is identical before and after the export,
i.e. `(doExport scene).scene = scene`; but for a selected object with a
translation world matrix the mesh's vertex positions are changed in place
by `mesh.transform(obj.matrixWorld)`. -/
theorem C1_cex : (doExport [objTrans]).scene ≠ [objTrans] := by decide

/-- C1 (amended): the export writes exactly one output stream and mutates
host scene state in exactly one way: for each selected object whose mesh
lookup succeeds, the mesh's vertex positions are transformed in place by
the object's world matrix; vertex normals, face structure, material
indices and materials are unchanged, and unselected or mesh-less objects
are untouched.  Triangulation is computed into the output only. -/
theorem C1_amended (scene : List Object) :
    ((doExport scene).scene = scene.map (fun o =>
      if o.selected = false then o
      else
        match o.meshLookup with
        | none => o
        | some m => { o with meshLookup := some (m.transform o.matrixWorld) })) ∧
    (∀ (m : Mesh) (M : Mat4),
      (m.transform M).materials = m.materials ∧
      (m.transform M).faces = m.faces.map (fun f =>
        { f with v := f.v.map (fun vt => { vt with co := M.applyPt vt.co }) })) := by
  constructor
  · show scene.map (fun o => (objExport o).2.2) = _
    congr 1
    funext o
    unfold objExport
    by_cases hsel : o.selected = false
    · rw [if_pos hsel, if_pos hsel]
    · rw [if_neg hsel, if_neg hsel]
      cases o.meshLookup <;> rfl
  · intro m M
    exact ⟨rfl, rfl⟩

/-- C2: a triangular face produces exactly one record with the vertices
in the face's original order; a quad face `(v0,v1,v2,v3)` produces
exactly two records, `(v3,v1,v0)` then `(v1,v2,v3)` (record counts are
measured by the number of newline-terminated lines written). -/
theorem C2 (mesh : Mesh) (face : Face) (a b c d : Vert) :
    (face.v = [a, b, c] →
      faceExport mesh face = (writeTri [a, b, c] (colorFor mesh face), []) ∧
      countNL (faceExport mesh face).1 = 1) ∧
    (face.v = [a, b, c, d] →
      faceExport mesh face =
        (writeTri [d, b, a] (colorFor mesh face) ++ writeTri [b, c, d] (colorFor mesh face), []) ∧
      countNL (faceExport mesh face).1 = 2) := by
  constructor
  · intro h
    have he := faceExport_tri mesh face a b c h
    refine ⟨he, ?_⟩
    rw [he]
    exact countNL_writeTri _ _
  · intro h
    have he := faceExport_quad mesh face a b c d h
    refine ⟨he, ?_⟩
    rw [he]
    show countNL (writeTri [d, b, a] (colorFor mesh face) ++
      writeTri [b, c, d] (colorFor mesh face)) = 2
    rw [countNL_append, countNL_writeTri, countNL_writeTri]

/-- C2 witness: a concrete triangle and a concrete quad. -/
theorem C2_witness :
    faceExport ⟨[], []⟩ face3 = (writeTri [vA, vB, vC] (colorFor ⟨[], []⟩ face3), []) ∧
    faceExport ⟨[], []⟩ face4 =
      (writeTri [vD, vB, vA] (colorFor ⟨[], []⟩ face4) ++
        writeTri [vB, vC, vD] (colorFor ⟨[], []⟩ face4), []) :=
  ⟨((C2 ⟨[], []⟩ face3 vA vB vC vD).1 rfl).1, ((C2 ⟨[], []⟩ face4 vA vB vC vD).2 rfl).1⟩

/-- C3: a face's record color is `materials[face.mat].rgbCol` when
`face.mat` is in range of the owning mesh's material list (the index is
unsigned, so only the upper bound is checked), and white `(1,1,1)`
otherwise — in particular when the mesh has no materials; and the color
triple written by `writeTri` is the same for all three vertices of every
record. -/
theorem C3 (mesh : Mesh) (face : Face) :
    (∀ h : face.mat < mesh.materials.length,
      colorFor mesh face = (mesh.materials.get ⟨face.mat, h⟩).rgbCol) ∧
    (mesh.materials.length ≤ face.mat →
      colorFor mesh face = ⟨⟨1, 1⟩, ⟨1, 1⟩, ⟨1, 1⟩⟩) ∧
    (∀ (verts : List Vert) (col : Vec3),
      writeTri verts col =
        sjoin (verts.map (fun v => fmtTriple v.co ++ fmtTriple v.no ++ fmtTriple col)) ++ "\n") := by
  refine ⟨fun h => ?_, fun h => ?_, fun verts col => rfl⟩
  · unfold colorFor
    rw [dif_pos h]
  · unfold colorFor
    rw [dif_neg (by omega)]

/-- C3 witness: an in-range index hits the red material, an index into an
empty material list yields white. -/
theorem C3_witness :
    colorFor matMesh ⟨0, []⟩ = redMat.rgbCol ∧
    colorFor ⟨[], []⟩ ⟨0, []⟩ = ⟨⟨1, 1⟩, ⟨1, 1⟩, ⟨1, 1⟩⟩ :=
  ⟨((C3 matMesh ⟨0, []⟩).1 (by decide)).trans rfl, (C3 ⟨[], []⟩ ⟨0, []⟩).2.1 (by decide)⟩

/-- C4 counterexample: on a one-triangle scene the export writes exactly
one line, and that line does not match the claimed grammar of exactly
nine space-separated triples followed by the newline — the script writes
a space after every triple, so a trailing space precedes the newline. -/
theorem C4_cex :
    countNL (doExport [objId]).output = 1 ∧
    specClaimedLine (doExport [objId]).output = false := by decide

/-- C4 (amended): the output is a concatenation of per-triangle lines;
each line carries exactly the data of one triangle — for each of its 3
vertices in order a position triple, a normal triple and a color triple,
each triple three comma-separated fixed-point numbers (optional sign, at
least one integer digit, exactly six fractional digits, no exponent),
each of the nine triples followed by a single space (so a trailing space
precedes the terminating newline). -/
theorem C4_amended (scene : List Object) :
    ∃ recs : List (List Vert × Vec3),
      (doExport scene).output = sjoin (recs.map (fun r => writeTri r.1 r.2)) ∧
      ∀ r ∈ recs, r.1.length = 3 ∧ lineOK (writeTri r.1 r.2) := by
  refine ⟨sceneTris scene, doExport_output scene, fun r hr => ?_⟩
  have h3 := sceneTris_len3 scene r hr
  exact ⟨h3, writeTri_lineOK _ _ h3⟩

/-- C5 counterexample: the claim says every written normal is the
mesh-local normal transformed by the world matrix without translation;
under a scale-by-2 world matrix the script's output differs from the
output prescribed by that claim, because `mesh.transform` (with its
default `recalc_normals=False`) leaves the stored normals untouched. -/
theorem C5_cex : (doExport [objScale]).output ≠ specC5doExport [objScale] := by decide

/-- C5 (amended): for every selected object with a resolvable mesh, every
written vertex position is the mesh-local position transformed by the
full world matrix (translation included), while every written normal is
the mesh-local normal unchanged. -/
theorem C5_amended (obj : Object) (mesh : Mesh) (hsel : obj.selected = true)
    (hm : obj.meshLookup = some mesh) :
    (objExport obj).1 =
      (meshExport ⟨mesh.faces.map (fun f =>
          ⟨f.mat, f.v.map (fun vt => ⟨obj.matrixWorld.applyPt vt.co, vt.no⟩)⟩),
        mesh.materials⟩).1 := by
  unfold objExport
  rw [if_neg (by simp [hsel]), hm]
  rfl

/-- C5 witness: the amended statement at a concrete object. -/
theorem C5_witness :
    (objExport objId).1 =
      (meshExport ⟨triMesh.faces.map (fun f =>
          ⟨f.mat, f.v.map (fun vt => ⟨objId.matrixWorld.applyPt vt.co, vt.no⟩)⟩),
        triMesh.materials⟩).1 :=
  C5_amended objId triMesh rfl rfl

/-- C6 counterexample: the claim says a failed mesh lookup emits a
diagnostic message; a scene with a selected object whose lookup fails
(followed by a good object) produces output for the good object but an
empty diagnostic list — the `except: continue` branch prints nothing. -/
theorem C6_cex :
    objNoMesh.selected = true ∧ objNoMesh.meshLookup = none ∧
    (doExport [objNoMesh, objId]).diags = [] ∧
    (doExport [objNoMesh, objId]).output ≠ "" := by decide

/-- C6 (amended): a selected object whose mesh lookup fails is skipped
non-fatally and silently — no diagnostic is emitted — nothing is written
for it, its state is untouched, and all other objects of the scene are
exported exactly as they would be without it. -/
theorem C6_amended (s1 s2 : List Object) (o : Object) (h : o.meshLookup = none) :
    (doExport (s1 ++ o :: s2)).output = (doExport (s1 ++ s2)).output ∧
    (doExport (s1 ++ o :: s2)).diags = (doExport (s1 ++ s2)).diags ∧
    (doExport (s1 ++ o :: s2)).scene = (doExport s1).scene ++ o :: (doExport s2).scene := by
  rw [doExport_append s1 (o :: s2), doExport_append s1 s2, doExport_cons, objExport_noMesh h]
  refine ⟨?_, ?_, rfl⟩
  · show (doExport s1).output ++ ("" ++ (doExport s2).output) = _
    rw [sempty_app]
  · show (doExport s1).diags ++ ([] ++ (doExport s2).diags) = _
    rfl

/-- C6 witness: the amended statement at a concrete scene. -/
theorem C6_witness :
    (doExport ([objId] ++ objNoMesh :: [objTrans])).output =
      (doExport ([objId] ++ [objTrans])).output :=
  (C6_amended [objId] [objTrans] objNoMesh rfl).1

/-- C7: a face whose vertex count is neither 3 nor 4 contributes no
output bytes at all, contributes exactly the one diagnostic message, and
removing it from the face list leaves the output of the remaining faces
unchanged (export continues). -/
theorem C7 (mesh : Mesh) (face : Face) (h3 : face.v.length ≠ 3) (h4 : face.v.length ≠ 4) :
    faceExport mesh face = ("", [skipMsg]) ∧
    ∀ (mats : List Material) (fs1 fs2 : List Face),
      (meshExport ⟨fs1 ++ face :: fs2, mats⟩).1 = (meshExport ⟨fs1 ++ fs2, mats⟩).1 ∧
      (meshExport ⟨fs1 ++ face :: fs2, mats⟩).2 =
        (meshExport ⟨fs1, mats⟩).2 ++ skipMsg :: (meshExport ⟨fs2, mats⟩).2 := by
  refine ⟨faceExport_snd mesh face h3 h4, fun mats fs1 fs2 => ?_⟩
  have hcons : face :: fs2 = [face] ++ fs2 := rfl
  have hf1 : (meshExport ⟨[face], mats⟩).1 = "" := by
    show sjoin [(faceExport ⟨[face], mats⟩ face).1] = ""
    rw [faceExport_snd _ face h3 h4]
    rfl
  have hf2 : (meshExport ⟨[face], mats⟩).2 = [skipMsg] := by
    show ([(faceExport ⟨[face], mats⟩ face).2]).flatten = [skipMsg]
    rw [faceExport_snd _ face h3 h4]
    rfl
  constructor
  · rw [hcons, meshExport_fst_append mats fs1 ([face] ++ fs2),
      meshExport_fst_append mats [face] fs2, hf1, sempty_app,
      meshExport_fst_append mats fs1 fs2]
  · rw [hcons, meshExport_snd_append mats fs1 ([face] ++ fs2),
      meshExport_snd_append mats [face] fs2, hf2]
    rfl

/-- C7 witness: a concrete five-vertex face is skipped with the
diagnostic and no written data. -/
theorem C7_witness : faceExport ⟨[], []⟩ face5 = ("", [skipMsg]) :=
  (C7 ⟨[], []⟩ face5 (by decide) (by decide)).1

/-- C8: when the output path cannot be opened the export aborts before
any export work with no file written; when it can be opened, the handle
(opened once by construction of `openAndRun`) is closed on every exit
path — both when the body returns and when it raises. -/
theorem C8 (scene : List Object) (body : String × Option String) :
    geomExportRun false scene = none ∧
    (∀ (fs : FileState) (rest : List String × List Object),
      geomExportRun true scene = some (fs, rest) → fs.closed = true) ∧
    openAndRun false body = none ∧
    (∀ (fs : FileState) (exc : Option String),
      openAndRun true body = some (fs, exc) → fs.closed = true) := by
  refine ⟨rfl, ?_, rfl, ?_⟩
  · intro fs rest h
    simp only [geomExportRun, if_true, Option.some.injEq, Prod.mk.injEq] at h
    rw [← h.1]
  · intro fs exc h
    simp only [openAndRun, if_true, Option.some.injEq, Prod.mk.injEq] at h
    rw [← h.1]

/-- C8 witness: the closed-on-success half at a concrete scene and body. -/
theorem C8_witness :
    (⟨(doExport [objId]).output, true⟩ : FileState).closed = true :=
  (C8 [objId] ("", none)).2.1 ⟨(doExport [objId]).output, true⟩
    ((doExport [objId]).diags, (doExport [objId]).scene) rfl

/-- C9: unselected objects never contribute to the output (the output
equals that of the selected-only scene), and a scene with no selected
object exports successfully with an empty file, no diagnostics, and an
unchanged scene. -/
theorem C9 (scene : List Object) :
    (doExport scene).output = (doExport (scene.filter (fun o => o.selected))).output ∧
    ((∀ o ∈ scene, o.selected = false) →
      geomExportRun true scene = some (⟨"", true⟩, [], scene)) := by
  refine ⟨doExport_output_filter scene, fun h => ?_⟩
  show some ((⟨(doExport scene).output, true⟩ : FileState),
    (doExport scene).diags, (doExport scene).scene) = _
  rw [doExport_all_unsel h]

/-- C9 witness: a single unselected object yields the empty file. -/
theorem C9_witness : geomExportRun true [objUnsel] = some (⟨"", true⟩, [], [objUnsel]) :=
  (C9 [objUnsel]).2 (by decide)

/-- C10: the output is a pure function of the scene state (all of
`doExport` is a function, so two exports of equal scene states are
byte-identical), and the record order is fixed: the file is the
object-by-object concatenation in scene order, each object's part is the
face-by-face concatenation in face order, and a quad face contributes its
two fan records adjacently, `(v3,v1,v0)` immediately before
`(v1,v2,v3)`. -/
theorem C10 (scene : List Object) :
    (doExport scene).output = sjoin (scene.map (fun o => (objExport o).1)) ∧
    (∀ (o : Object) (m : Mesh), o.selected = true → o.meshLookup = some m →
      (objExport o).1 = sjoin ((m.transform o.matrixWorld).faces.map
        (fun f => (faceExport (m.transform o.matrixWorld) f).1))) ∧
    (∀ (me : Mesh) (f : Face) (a b c d : Vert), f.v = [a, b, c, d] →
      (faceExport me f).1 =
        writeTri [d, b, a] (colorFor me f) ++ writeTri [b, c, d] (colorFor me f)) := by
  refine ⟨rfl, fun o m hsel hm => ?_, fun me f a b c d h => ?_⟩
  · unfold objExport
    rw [if_neg (by simp [hsel]), hm]
    rfl
  · rw [faceExport_quad me f a b c d h]

/-- C10 witness: the order statements at a concrete object and a concrete
quad face. -/
theorem C10_witness :
    (objExport objId).1 = sjoin ((triMesh.transform objId.matrixWorld).faces.map
      (fun f => (faceExport (triMesh.transform objId.matrixWorld) f).1)) ∧
    (faceExport ⟨[], []⟩ face4).1 =
      writeTri [vD, vB, vA] (colorFor ⟨[], []⟩ face4) ++
        writeTri [vB, vC, vD] (colorFor ⟨[], []⟩ face4) :=
  ⟨(C10 [objId]).2.1 objId triMesh rfl rfl, (C10 [objId]).2.2 ⟨[], []⟩ face4 vA vB vC vD rfl⟩

end BlenderExport
